import Mathlib

/-!
Verification of the llama.cpp runner repository against its specification.

The development shallowly embeds the three Python source files:
  * `llama_client.py`   — `send_completion_request`, reading globals through
    `get_server_status` from `llama_initializer.py`;
  * `llama_initializer.py` — module globals, the initialization sequence and
    `get_server_status`;
  * `rp_handler.py`     — the near-duplicate initialization sequence and the
    serverless `handler`.

JSON values are modelled by the inductive `JValue` (numbers as rationals).
Python exceptions are modelled by `PyExn` and fallible evaluation by `Except`.
Outbound HTTP is modelled by an oracle `net : Request → NetResult`; each
embedded operation additionally returns the list of requests it issued, so
that "issues zero network calls" is a statement about the result.
-/

set_option autoImplicit false

/-- JSON values, as passed around by the Python code (numbers as rationals;
the distinction between Python int and float is immaterial here). -/
inductive JValue where
  | null
  | bool (b : Bool)
  | num (q : Rat)
  | str (s : String)
  | arr (xs : List JValue)
  | obj (kvs : List (String × JValue))

/-- Python exceptions that the embedded fragments can raise. -/
inductive PyExn where
  | keyError
  | indexError
  | typeError
  | attributeError
deriving DecidableEq

/-- `str(e)` for the modelled exceptions (the message text the code
interpolates into its error strings). -/
def PyExn.msg : PyExn → String
  | .keyError => "KeyError"
  | .indexError => "IndexError"
  | .typeError => "TypeError"
  | .attributeError => "AttributeError"

/-- First-match association lookup, modelling Python dict access on the
(ordered) key-value lists carried by `JValue.obj`. -/
def lookupKey : List (String × JValue) → String → Option JValue
  | [], _ => none
  | (k, v) :: rest, key => if k = key then some v else lookupKey rest key

/-- Python truthiness of a JSON value (`if result and ...`). -/
def JValue.truthy : JValue → Bool
  | .null => false
  | .bool b => b
  | .num q => decide (q ≠ 0)
  | .str s => !s.isEmpty
  | .arr xs => !xs.isEmpty
  | .obj kvs => !kvs.isEmpty

/-- Truthiness of a value that may be absent (`dict.get` returns `None` when
the key is missing, and `None` is falsy). -/
def optTruthy : Option JValue → Bool
  | none => false
  | some v => v.truthy

/-- Python subscript `v[key]` with a string key: `KeyError` on a dict miss,
`TypeError` on every non-dict value. -/
def JValue.getItem : JValue → String → Except PyExn JValue
  | .obj kvs, k =>
      match lookupKey kvs k with
      | some v => .ok v
      | none => .error .keyError
  | _, _ => .error .typeError

/-- Python subscript `v[i]` with an integer index: `IndexError` past the end
of a list, `KeyError` on a dict (an int is just an absent key there),
`TypeError` on scalars. -/
def JValue.index : JValue → Nat → Except PyExn JValue
  | .arr xs, i =>
      match xs.get? i with
      | some v => .ok v
      | none => .error .indexError
  | .obj _, _ => .error .keyError
  | _, _ => .error .typeError

/-- Python `str.__bool__`-style truthiness of an optional string: an unset
environment variable (`None`) and the empty string are both falsy. -/
def truthyOptStr : Option String → Bool
  | none => false
  | some s => !s.isEmpty

/-- `str(b)` for a Python bool. -/
def pyStrBool : Bool → String
  | true => "True"
  | false => "False"

/-- Render a rational the way `json.dumps` renders the numbers that occur
here (integers without a fractional part). -/
def ratDump (q : Rat) : String :=
  if q.den = 1 then toString q.num else toString q

mutual

/-- `json.dumps` with its default separators, as used in
`f"Unexpected response format from LLM server: \x7bjson.dumps(result)\x7d"`.
String escaping is not modelled (no special characters occur in the
development). -/
def JValue.dumps : JValue → String
  | .null => "null"
  | .bool true => "true"
  | .bool false => "false"
  | .num q => ratDump q
  | .str s => "\"" ++ s ++ "\""
  | .arr xs => "[" ++ dumpsArr xs ++ "]"
  | .obj kvs => "\x7b" ++ dumpsObj kvs ++ "\x7d"

/-- Comma-separated rendering of a JSON array's elements. -/
def dumpsArr : List JValue → String
  | [] => ""
  | [v] => v.dumps
  | v :: w :: rest => v.dumps ++ ", " ++ dumpsArr (w :: rest)

/-- Comma-separated rendering of a JSON object's entries. -/
def dumpsObj : List (String × JValue) → String
  | [] => ""
  | [(k, v)] => "\"" ++ k ++ "\": " ++ v.dumps
  | (k, v) :: e :: rest => "\"" ++ k ++ "\": " ++ v.dumps ++ ", " ++ dumpsObj (e :: rest)

end

/-- `pat` is a prefix of `s` (on character lists). -/
def charsHavePre (s pat : List Char) : Bool :=
  match pat, s with
  | [], _ => true
  | _ :: _, [] => false
  | d :: p, c :: s2 => (c == d) && charsHavePre s2 p

/-- `pat` occurs somewhere in `s` (on character lists). -/
def charsHaveSub : List Char → List Char → Bool
  | s, pat =>
    if charsHavePre s pat then true
    else
      match s with
      | [] => false
      | _ :: rest => charsHaveSub rest pat

/-- Substring test, used to state that an error message mentions a given
phrase. -/
def strContains (s pat : String) : Bool :=
  charsHaveSub s.data pat.data

/-- The module-level mutable globals of `llama_initializer.py` /
`rp_handler.py` that the request path reads. -/
structure InitState where
  isServerReady : Bool
  serverUrl : String
  hfModelFileName : Option String
  apiToken : Option String

/-- The dict returned by `get_server_status` in `llama_initializer.py`.
Note the `api_token` entry: the Python source returns
`api_token is not None` — a boolean, not the token string. -/
structure ServerStatus where
  is_ready : Bool
  server_url : String
  model_file : Option String
  api_token : Bool

/-- `get_server_status` from `llama_initializer.py`. -/
def get_server_status (g : InitState) : ServerStatus :=
  { is_ready := g.isServerReady
    server_url := g.serverUrl
    model_file := g.hfModelFileName
    api_token := g.apiToken.isSome }

/-- An outbound HTTP request as assembled by the code: target URL, the value
of the `Authorization` header when one is attached, the JSON payload, and
the timeout in seconds. -/
structure Request where
  url : String
  authHeader : Option String
  payload : Option JValue
  timeout : Nat

/-- An upstream HTTP response: status code, the JSON decoding of the body
(`none` when the body is not valid JSON), and the raw body text. -/
structure HttpResponse where
  status : Nat
  jsonBody : Option JValue
  text : String

/-- Outcome of one `requests.post` call: a response, or a transport-level
`RequestException` carrying no response (connection error, timeout, ...),
identified by its message text. -/
inductive NetResult where
  | ok (resp : HttpResponse)
  | transportError (e : String)

/-- `"Llama.cpp server is not ready. Initialization failed."` -/
def notReadyMsg : String := "Llama.cpp server is not ready. Initialization failed."

/-- `"No prompt provided."` (client variant). -/
def noPromptClientMsg : String := "No prompt provided."

/-- `"No 'prompt' found in job input."` (handler variant). -/
def noPromptHandlerMsg : String := "No \x27prompt\x27 found in job input."

/-- Prefix of the unexpected-format failure message. -/
def unexpectedFormatPrefix : String := "Unexpected response format from LLM server: "

/-- Prefix of the request-failure message. -/
def failedPrefix : String := "Failed to get response from LLM server: "

/-- Prefix of the catch-all failure message. -/
def unexpectedErrorPrefix : String := "An unexpected error occurred: "

/-- Python `None`/string to JSON, for the `"model"` payload entry. -/
def optStrJ : Option String → JValue
  | none => .null
  | some s => .str s

/-- `if result and result.get("choices"):` — short-circuit truthiness.
`.get` on a non-dict raises `AttributeError`; a missing key yields falsy
`None`. -/
def checkChoices (result : JValue) : Except PyExn Bool :=
  if result.truthy = false then .ok false
  else
    match result with
    | .obj kvs => .ok (optTruthy (lookupKey kvs "choices"))
    | _ => .error .attributeError

/-- `result["choices"][0]["message"]["content"]`. -/
def extractContent (result : JValue) : Except PyExn JValue :=
  match result.getItem "choices" with
  | .error e => .error e
  | .ok cs =>
    match cs.index 0 with
    | .error e => .error e
    | .ok c0 =>
      match c0.getItem "message" with
      | .error e => .error e
      | .ok m => m.getItem "content"

/-- Body of the shared `try` block of `send_completion_request` and
`handler` (the two Python functions duplicate this code verbatim), applied
to the outcome of the POST. `raise_for_status` raises `HTTPError` (a
`RequestException` with the response attached) for statuses ≥ 400; a body
that fails to decode as JSON raises the requests `JSONDecodeError` (a
`RequestException` without a response); every other exception lands in the
catch-all branch. -/
def completionTry (nr : NetResult) : JValue :=
  match nr with
  | .transportError e => .obj [("error", .str (failedPrefix ++ e))]
  | .ok resp =>
    if 400 ≤ resp.status then
      match resp.jsonBody with
      | some details =>
          .obj [("error", .str (failedPrefix ++ "HTTPError " ++ toString resp.status)),
                ("details", details)]
      | none =>
          .obj [("error", .str (failedPrefix ++ "HTTPError " ++ toString resp.status)),
                ("response_text", .str resp.text)]
    else
      match resp.jsonBody with
      | none => .obj [("error", .str (failedPrefix ++ "JSONDecodeError"))]
      | some result =>
        match checkChoices result with
        | .error e => .obj [("error", .str (unexpectedErrorPrefix ++ e.msg))]
        | .ok false => .obj [("error", .str (unexpectedFormatPrefix ++ result.dumps))]
        | .ok true =>
          match extractContent result with
          | .error e => .obj [("error", .str (unexpectedErrorPrefix ++ e.msg))]
          | .ok v => .obj [("result", v)]

/-- `send_completion_request` from `llama_client.py`. Returns the dict the
Python function returns, paired with the list of POST requests issued. -/
def send_completion_request (g : InitState) (prompt : String)
    (max_tokens : Int) (temperature : Rat)
    (net : Request → NetResult) : JValue × List Request :=
  let server_status := get_server_status g
  if server_status.is_ready = false then
    (.obj [("error", .str notReadyMsg)], [])
  else if prompt.isEmpty then
    (.obj [("error", .str noPromptClientMsg)], [])
  else
    let payload : JValue := .obj
      [("messages", .arr [.obj [("role", .str "user"), ("content", .str prompt)]]),
       ("model", optStrJ server_status.model_file),
       ("max_tokens", .num (max_tokens : Rat)),
       ("temperature", .num temperature)]
    let auth : Option String :=
      if server_status.api_token then
        some ("Bearer " ++ pyStrBool server_status.api_token)
      else none
    let req : Request :=
      { url := server_status.server_url ++ "/v1/chat/completions"
        authHeader := auth
        payload := some payload
        timeout := 120 }
    (completionTry (net req), [req])

/-- `handler` from `rp_handler.py`. The prompt is extracted from
`job["input"]` before the `try` block, so a malformed job raises
(`Except.error`); otherwise the function returns its dict together with the
list of POST requests issued. -/
def handler (g : InitState) (job : JValue) (net : Request → NetResult) :
    Except PyExn (JValue × List Request) :=
  if g.isServerReady = false then
    .ok (.obj [("error", .str notReadyMsg)], [])
  else
    match job.getItem "input" with
    | .error e => .error e
    | .ok (.obj kvs) =>
      if optTruthy (lookupKey kvs "prompt") = false then
        .ok (.obj [("error", .str noPromptHandlerMsg)], [])
      else
        let prompt := (lookupKey kvs "prompt").getD .null
        let payload : JValue := .obj
          [("messages", .arr [.obj [("role", .str "user"), ("content", prompt)]]),
           ("model", optStrJ g.hfModelFileName),
           ("max_tokens", (lookupKey kvs "max_tokens").getD (.num 500)),
           ("temperature", (lookupKey kvs "temperature").getD (.num (7 / 10)))]
        let auth : Option String :=
          if truthyOptStr g.apiToken then
            some ("Bearer " ++ g.apiToken.getD "")
          else none
        let req : Request :=
          { url := g.serverUrl ++ "/v1/chat/completions"
            authHeader := auth
            payload := some payload
            timeout := 120 }
        .ok (completionTry (net req), [req])
    | .ok _ => .error .attributeError

/-- The dict a non-raising `handler` run produced, if any. -/
def handlerValue (r : Except PyExn (JValue × List Request)) : Option JValue :=
  match r with
  | .ok p => some p.1
  | .error _ => none

/-- The requests a non-raising `handler` run issued ([] on a raise). -/
def handlerReqs (r : Except PyExn (JValue × List Request)) : List Request :=
  match r with
  | .ok p => p.2
  | .error _ => []

/-! ## Initialization sequence

`initialize_runner` (in `llama_initializer.py`) and `_initialize_runner`
(in `rp_handler.py`) are line-for-line duplicates except for the polling
bound (600 vs. 300 iterations); both are embedded as `initRunnerAux` at the
respective bound. (The Lean identifiers avoid the Python spelling of the
name for lexical reasons only.) External interactions are an oracle per
kind; the returned trace records, in order, every side effect the sequence
performed, so "no subprocess launched" and "the subprocess was sent a kill
signal" are statements about the trace. -/

/-- The environment variables the initialization sequence reads (`none`
models an unset variable). The numeric/boolean model parameters are carried
pre-parsed in `ConfigInputs`. -/
structure Env where
  hugging_face_token : Option String
  hf_model_repo : Option String
  hf_model_file : Option String
  server_config_file : Option String
  api_token : Option String

/-- The configuration inputs after Python's `int(...)` / `float(...)` /
`.lower() == "true"` conversions (the string-to-number parsing of the
environment values is taken as given). -/
structure ConfigInputs where
  server_port : Int
  n_gpu_layers : Int
  n_ctx : Int
  n_batch : Int
  n_threads : Int
  offload_kqv : Bool
  use_mlock : Bool
  rope_freq_scale : Rat
  chat_format : String

/-- The `config_content` dict generated by the initialization sequence and
dumped to the server config file. The `api_key` entry is appended only when
the `API_TOKEN` global is truthy. -/
def config_content (inputs : ConfigInputs) (hf_model_file_name : String)
    (api_token : Option String) : JValue :=
  let base : List (String × JValue) :=
    [("host", .str "0.0.0.0"),
     ("port", .num (inputs.server_port : Rat)),
     ("models", .arr
       [.obj
         [("model", .str ("models/" ++ hf_model_file_name)),
          ("n_gpu_layers", .num (inputs.n_gpu_layers : Rat)),
          ("n_ctx", .num (inputs.n_ctx : Rat)),
          ("n_batch", .num (inputs.n_batch : Rat)),
          ("n_threads", .num (inputs.n_threads : Rat)),
          ("offload_kqv", .bool inputs.offload_kqv),
          ("use_mlock", .bool inputs.use_mlock),
          ("rope_freq_scale", .num inputs.rope_freq_scale),
          ("chat_format", .str inputs.chat_format)]])]
  if truthyOptStr api_token then
    .obj (base ++ [("api_key", .str (api_token.getD ""))])
  else
    .obj base

/-- Whether a JSON object carries a top-level key. -/
def hasKey (v : JValue) (k : String) : Bool :=
  match v with
  | .obj kvs => (lookupKey kvs k).isSome
  | _ => false

/-- Outcome of one `requests.get(f".../health", ...)` attempt: a response
status, a `ConnectionError` (silently ignored by the loop), or any other
exception (logged and ignored by the loop). -/
inductive PollOutcome where
  | status (code : Nat)
  | connError
  | otherError (e : String)
deriving DecidableEq

/-- `response.status_code == 200`; every exception outcome is not a 200. -/
def pollOutcomeIs200 : PollOutcome → Bool
  | .status c => c == 200
  | _ => false

/-- The health-polling loop (`for i in range(bound): ...`), started at
iteration `i` with `fuel` iterations left. Returns the final value of
`is_server_ready` and the list of iterations at which a health request was
issued; a 200 breaks out of the loop immediately after its own request. -/
def pollFrom (health : Nat → PollOutcome) (i : Nat) : Nat → Bool × List Nat
  | 0 => (false, [])
  | fuel + 1 =>
    if pollOutcomeIs200 (health i) then (true, [i])
    else
      let r := pollFrom health (i + 1) fuel
      (r.1, i :: r.2)

/-- Side effects of the initialization sequence, in program order. -/
inductive Effect where
  | makeDirs (d : String)
  | runCommand (c : String)
  | writeFile (path : String) (content : JValue)
  | popen (cmd : String)
  | healthGet (iteration : Nat)
  | killProcess

/-- Whether an effect launches a subprocess (`subprocess.run` inside
`_execute_command`, or `subprocess.Popen`). -/
def Effect.isLaunch : Effect → Bool
  | .runCommand _ => true
  | .popen _ => true
  | _ => false

/-- Whether an effect is the `llama_server_process.kill()` call. -/
def Effect.isKill : Effect → Bool
  | .killProcess => true
  | _ => false

/-- How the initialization sequence ended: `sys.exit(code)`, or completion
with the resulting global state. -/
inductive InitResult where
  | exited (code : Nat)
  | ok (st : InitState)

/-- The shared body of `initialize_runner` / `_initialize_runner`,
parameterized by the polling bound. Oracles: `cmdOk` for the shell
commands, `writeOk` for the config-file write, `popenOk` for the server
launch, `health` for the poll outcomes. -/
def initRunnerAux (bound : Nat) (env : Env) (inputs : ConfigInputs)
    (cmdOk : String → Bool) (writeOk popenOk : Bool)
    (health : Nat → PollOutcome) : InitResult × List Effect :=
  if truthyOptStr env.hugging_face_token = false then (.exited 1, [])
  else if truthyOptStr env.hf_model_repo = false then (.exited 1, [])
  else if truthyOptStr env.hf_model_file = false then (.exited 1, [])
  else
    let cmd1 := "pip install llama-cpp-python[server] --extra-index-url https://abetlen.github.io/llama-cpp-python/whl/cu124"
    let cmd2 := "pip install -U \x27huggingface_hub\x27"
    let cmd3 := "hf auth login --token " ++ env.hugging_face_token.getD ""
    let cmd4 := "hf download " ++ env.hf_model_repo.getD "" ++ " "
      ++ env.hf_model_file.getD "" ++ " --local-dir models/"
    let t0 : List Effect := [.makeDirs "models"]
    if cmdOk cmd1 = false then (.exited 1, t0 ++ [.runCommand cmd1])
    else if cmdOk cmd2 = false then
      (.exited 1, t0 ++ [.runCommand cmd1, .runCommand cmd2])
    else if cmdOk cmd3 = false then
      (.exited 1, t0 ++ [.runCommand cmd1, .runCommand cmd2, .runCommand cmd3])
    else if cmdOk cmd4 = false then
      (.exited 1, t0 ++ [.runCommand cmd1, .runCommand cmd2, .runCommand cmd3,
                         .runCommand cmd4])
    else
      let t1 := t0 ++ [.runCommand cmd1, .runCommand cmd2, .runCommand cmd3,
                       .runCommand cmd4]
      let hfFile := env.hf_model_file.getD ""
      let cfg := config_content inputs hfFile env.api_token
      let cfgFile := env.server_config_file.getD "server_config.json"
      let t2 := t1 ++ [.writeFile cfgFile cfg]
      if writeOk = false then (.exited 1, t2)
      else
        let serverCmd := "python3 -m llama_cpp.server --config_file " ++ cfgFile
        let t3 := t2 ++ [.popen serverCmd]
        if popenOk = false then (.exited 1, t3)
        else
          let pr := pollFrom health 0 bound
          let t4 := t3 ++ pr.2.map Effect.healthGet
          if pr.1 then
            (.ok { isServerReady := true
                   serverUrl := "http://localhost:" ++ toString inputs.server_port
                   hfModelFileName := some hfFile
                   apiToken := env.api_token }, t4)
          else
            (.exited 1, t4 ++ [.killProcess])

/-- `initialize_runner` from `llama_initializer.py` (polling bound 600). -/
def initRunner (env : Env) (inputs : ConfigInputs) (cmdOk : String → Bool)
    (writeOk popenOk : Bool) (health : Nat → PollOutcome) :
    InitResult × List Effect :=
  initRunnerAux 600 env inputs cmdOk writeOk popenOk health

/-- `_initialize_runner` from `rp_handler.py` (polling bound 300). -/
def rpInitRunner (env : Env) (inputs : ConfigInputs) (cmdOk : String → Bool)
    (writeOk popenOk : Bool) (health : Nat → PollOutcome) :
    InitResult × List Effect :=
  initRunnerAux 300 env inputs cmdOk writeOk popenOk health

/-! ## Shared concrete fixtures and helper lemmas -/

/-- A ready state with an API token configured. -/
def gTok : InitState :=
  { isServerReady := true
    serverUrl := "http://localhost:9095"
    hfModelFileName := some "model.gguf"
    apiToken := some "secret" }

/-- A ready state with no API token configured. -/
def gNoTok : InitState :=
  { gTok with apiToken := none }

/-- A not-ready state. -/
def gNotReady : InitState :=
  { gTok with isServerReady := false }

/-- The documented successful-completion response. -/
def resp200 : HttpResponse :=
  { status := 200
    jsonBody := some (.obj [("choices",
      .arr [.obj [("message", .obj [("content", .str "hello")])]])])
    text := "" }

/-- A network oracle answering every request with `resp200`. -/
def net200 : Request → NetResult := fun _ => .ok resp200

/-- A well-formed job carrying the prompt "hi". -/
def jobHi : JValue := .obj [("input", .obj [("prompt", .str "hi")])]

/-- A lookup hit forces the association list to be non-empty. -/
theorem lookupKey_some_not_nil {kvs : List (String × JValue)} {k : String}
    {v : JValue} (h : lookupKey kvs k = some v) : kvs.isEmpty = false := by
  cases kvs with
  | nil => simp [lookupKey] at h
  | cons a rest => rfl

/-! ## Claims about the completion proxy -/

/-- C1: the outbound completion POST is claimed to carry
`Authorization: Bearer <token>` in both `send_completion_request` and
`handler` when a token is configured, and no such header otherwise. The
code violates the first half in `send_completion_request`: since
`get_server_status` exposes `api_token is not None` (a boolean) under the
`api_token` key, the client interpolates that boolean and sends
`Bearer True` instead of `Bearer secret`; `handler`, which reads the token
global directly, sends the correct header. With no token configured,
neither attaches the header. -/
theorem c1_bearer_header_code_bug :
    ((send_completion_request gTok "hi" 500 (7 / 10) net200).2.map Request.authHeader
      = [some "Bearer True"])
  ∧ ((handlerReqs (handler gTok jobHi net200)).map Request.authHeader
      = [some ("Bearer " ++ "secret")])
  ∧ ("Bearer True" : String) ≠ "Bearer " ++ "secret"
  ∧ ((send_completion_request gNoTok "hi" 500 (7 / 10) net200).2.map Request.authHeader
      = [none])
  ∧ ((handlerReqs (handler gNoTok jobHi net200)).map Request.authHeader
      = [none]) := by
  refine ⟨rfl, rfl, by decide, rfl, rfl⟩

/-- C2, counterexample: a job without an `"input"` key makes `handler`
raise a `KeyError` (the extraction runs before the `try` block), so not
every malformed caller input is converted into an error result. -/
theorem c2_counterexample :
    handler gTok (.obj [("x", .null)]) net200 = .error .keyError := rfl

/-- C2, amended: once the job carries an `"input"` dict, `handler` never
raises — every branch, including every exception inside the request /
response section, yields a returned dict. -/
theorem c2_no_raise_with_input_dict (g : InitState) (job : JValue)
    (net : Request → NetResult) (kvs : List (String × JValue))
    (hjob : job.getItem "input" = .ok (.obj kvs)) :
    ∃ r, handler g job net = .ok r := by
  unfold handler
  by_cases hready : g.isServerReady = false
  · simp [hready]
  · rw [hjob]
    by_cases hprompt : optTruthy (lookupKey kvs "prompt") = false
    · simp [hready, hprompt]
    · simp [hready, hprompt]

/-- C2, witness for the amended theorem at a concrete job. -/
theorem c2_witness : ∃ r, handler gTok jobHi net200 = .ok r :=
  c2_no_raise_with_input_dict gTok jobHi net200 [("prompt", .str "hi")] rfl

/-- C3: with `is_server_ready` false, both `send_completion_request` and
`handler` return the not-ready error dict, whose message mentions the
server not being ready, and issue zero network calls. -/
theorem c3_not_ready_no_network (g : InitState) (prompt : String) (mt : Int)
    (temp : Rat) (net : Request → NetResult) (job : JValue)
    (h : g.isServerReady = false) :
    send_completion_request g prompt mt temp net
      = (.obj [("error", .str notReadyMsg)], [])
  ∧ handler g job net = .ok (.obj [("error", .str notReadyMsg)], [])
  ∧ strContains notReadyMsg "not ready" = true := by
  refine ⟨?_, ?_, by decide⟩
  · simp [send_completion_request, get_server_status, h]
  · simp [handler, h]

/-- C3, witness at a concrete not-ready state. -/
theorem c3_witness :
    send_completion_request gNotReady "hi" 500 (7 / 10) net200
      = (.obj [("error", .str notReadyMsg)], [])
  ∧ handler gNotReady jobHi net200 = .ok (.obj [("error", .str notReadyMsg)], [])
  ∧ strContains notReadyMsg "not ready" = true :=
  c3_not_ready_no_network gNotReady "hi" 500 (7 / 10) net200 jobHi rfl

/-- C4: with a ready server, an empty prompt (client) or a missing/falsy
`"prompt"` entry (handler) yields the respective no-prompt error dict,
whose message mentions the prompt, with zero network calls. -/
theorem c4_no_prompt_no_network (g : InitState) (mt : Int) (temp : Rat)
    (net : Request → NetResult) (job : JValue) (kvs : List (String × JValue))
    (hready : g.isServerReady = true)
    (hjob : job.getItem "input" = .ok (.obj kvs))
    (hprompt : optTruthy (lookupKey kvs "prompt") = false) :
    send_completion_request g "" mt temp net
      = (.obj [("error", .str noPromptClientMsg)], [])
  ∧ handler g job net = .ok (.obj [("error", .str noPromptHandlerMsg)], [])
  ∧ strContains noPromptClientMsg "prompt" = true
  ∧ strContains noPromptHandlerMsg "prompt" = true := by
  refine ⟨?_, ?_, by decide, by decide⟩
  · simp [send_completion_request, get_server_status, hready, String.isEmpty]
  · simp [handler, hready, hjob, hprompt]

/-- C4, witness at a concrete ready state and promptless job. -/
theorem c4_witness :
    send_completion_request gTok "" 500 (7 / 10) net200
      = (.obj [("error", .str noPromptClientMsg)], [])
  ∧ handler gTok (.obj [("input", .obj [])]) net200
      = .ok (.obj [("error", .str noPromptHandlerMsg)], [])
  ∧ strContains noPromptClientMsg "prompt" = true
  ∧ strContains noPromptHandlerMsg "prompt" = true :=
  c4_no_prompt_no_network gTok 500 (7 / 10) net200 (.obj [("input", .obj [])]) []
    rfl rfl rfl

/-- A prefix stays a prefix after appending on the right. -/
theorem charsHavePre_append (pat s t : List Char)
    (h : charsHavePre s pat = true) : charsHavePre (s ++ t) pat = true := by
  induction pat generalizing s with
  | nil => simp [charsHavePre]
  | cons d p ih =>
    cases s with
    | nil => simp [charsHavePre] at h
    | cons c s' =>
      simp [charsHavePre] at h ⊢
      exact ⟨h.1, ih s' h.2⟩

/-- A string that starts with `pat` mentions `pat`, whatever is appended. -/
theorem strContains_of_pre (a b pat : String)
    (h : charsHavePre a.data pat.data = true) :
    strContains (a ++ b) pat = true := by
  show charsHaveSub (a.data ++ b.data) pat.data = true
  unfold charsHaveSub
  simp [charsHavePre_append _ _ _ h]

/-- The successful-extraction behavior of the shared `try` block. -/
theorem completionTry_success (resp : HttpResponse)
    (kvs ckvs mkvs : List (String × JValue)) (rest : List JValue) (v : JValue)
    (hhi : resp.status < 400)
    (hbody : resp.jsonBody = some (.obj kvs))
    (hchoices : lookupKey kvs "choices" = some (.arr (JValue.obj ckvs :: rest)))
    (hmsg : lookupKey ckvs "message" = some (.obj mkvs))
    (hcontent : lookupKey mkvs "content" = some v) :
    completionTry (.ok resp) = .obj [("result", v)] := by
  have hne := lookupKey_some_not_nil hchoices
  have h400 : ¬ (400 ≤ resp.status) := by omega
  simp [completionTry, h400, hbody, checkChoices, JValue.truthy, hne, optTruthy,
    hchoices, extractContent, JValue.getItem, JValue.index, hmsg, hcontent]

/-- C5: a 2xx response whose JSON body has a non-empty `choices` list whose
first choice carries message content makes both `send_completion_request`
and `handler` return the result dict holding exactly that content. -/
theorem c5_success_extracts_content (g : InitState) (prompt : String)
    (mt : Int) (temp : Rat) (net : Request → NetResult) (resp : HttpResponse)
    (kvs ckvs mkvs : List (String × JValue)) (rest : List JValue) (v : JValue)
    (job : JValue) (ikvs : List (String × JValue))
    (hready : g.isServerReady = true)
    (hprompt : prompt.isEmpty = false)
    (hnet : ∀ r, net r = .ok resp)
    (hlo : 200 ≤ resp.status) (hhi : resp.status < 300)
    (hbody : resp.jsonBody = some (.obj kvs))
    (hchoices : lookupKey kvs "choices" = some (.arr (JValue.obj ckvs :: rest)))
    (hmsg : lookupKey ckvs "message" = some (.obj mkvs))
    (hcontent : lookupKey mkvs "content" = some v)
    (hjob : job.getItem "input" = .ok (.obj ikvs))
    (hjprompt : optTruthy (lookupKey ikvs "prompt") = true) :
    (send_completion_request g prompt mt temp net).1 = .obj [("result", v)]
  ∧ handlerValue (handler g job net) = some (.obj [("result", v)]) := by
  have hct : completionTry (.ok resp) = .obj [("result", v)] :=
    completionTry_success resp kvs ckvs mkvs rest v (by omega) hbody hchoices
      hmsg hcontent
  constructor
  · simp [send_completion_request, get_server_status, hready, hprompt, hnet, hct]
  · simp [handler, handlerValue, hready, hjob, hjprompt, hnet, hct]

/-- C5, witness: the documented `"hello"` exchange, through both entry
points. -/
theorem c5_witness :
    (send_completion_request gTok "hi" 500 (7 / 10) net200).1
      = .obj [("result", .str "hello")]
  ∧ handlerValue (handler gTok jobHi net200)
      = some (.obj [("result", .str "hello")]) :=
  c5_success_extracts_content gTok "hi" 500 (7 / 10) net200 resp200
    [("choices", .arr [.obj [("message", .obj [("content", .str "hello")])]])]
    [("message", .obj [("content", .str "hello")])]
    [("content", .str "hello")] [] (.str "hello") jobHi [("prompt", .str "hi")]
    rfl rfl (fun _ => rfl) (by decide) (by decide) rfl rfl rfl rfl rfl rfl

/-- A 2xx response whose JSON body is well-formed but not of the expected
shape: `choices` is present and non-empty, yet its first element has no
`message` entry. -/
def respBadChoice : HttpResponse :=
  { status := 200
    jsonBody := some (.obj [("choices", .arr [.obj []])])
    text := "" }

/-- C6, counterexample: on the 2xx body `\x7b"choices": [\x7b\x7d]\x7d` —
well-formed JSON without the expected shape — the code takes the `KeyError`
path of the catch-all branch, so the returned message is the generic
unexpected-error one: it neither mentions an unexpected response format nor
includes the serialized body. -/
theorem c6_counterexample :
    (send_completion_request gTok "hi" 500 (7 / 10) (fun _ => .ok respBadChoice)).1
      = .obj [("error", .str (unexpectedErrorPrefix ++ "KeyError"))]
  ∧ strContains (unexpectedErrorPrefix ++ "KeyError")
      "Unexpected response format" = false
  ∧ strContains (unexpectedErrorPrefix ++ "KeyError")
      (JValue.obj [("choices", .arr [.obj []])]).dumps = false := by
  refine ⟨rfl, by decide, by decide⟩

/-- The choices check comes out falsy exactly when the body is falsy or is
a dict whose `choices` entry is absent or falsy. -/
theorem checkChoices_false_of_shape {body : JValue}
    (h : body.truthy = false
      ∨ ∃ kvs, body = .obj kvs ∧ optTruthy (lookupKey kvs "choices") = false) :
    checkChoices body = .ok false := by
  rcases h with h | ⟨kvs, rfl, hc⟩
  · simp [checkChoices, h]
  · by_cases ht : JValue.truthy (.obj kvs) = false
    · simp [checkChoices, ht]
    · simp [checkChoices, ht, hc]

/-- The unexpected-format behavior of the shared `try` block. -/
theorem completionTry_format_error (resp : HttpResponse) (body : JValue)
    (hhi : resp.status < 400) (hbody : resp.jsonBody = some body)
    (hshape : checkChoices body = .ok false) :
    completionTry (.ok resp)
      = .obj [("error", .str (unexpectedFormatPrefix ++ body.dumps))] := by
  have h400 : ¬ (400 ≤ resp.status) := by omega
  simp [completionTry, h400, hbody, hshape]

/-- C6, amended: for a 2xx response whose well-formed JSON body is falsy,
or is a dict whose `choices` entry is absent or falsy, both entry points
return the unexpected-format failure carrying the serialized body; bodies
that pass the choices check but lack message content fall into the generic
catch-all branch instead (see the counterexample). -/
theorem c6_format_error (g : InitState) (prompt : String) (mt : Int)
    (temp : Rat) (net : Request → NetResult) (resp : HttpResponse)
    (body : JValue) (job : JValue) (ikvs : List (String × JValue))
    (hready : g.isServerReady = true)
    (hprompt : prompt.isEmpty = false)
    (hnet : ∀ r, net r = .ok resp)
    (hlo : 200 ≤ resp.status) (hhi : resp.status < 300)
    (hbody : resp.jsonBody = some body)
    (hshape : body.truthy = false
      ∨ ∃ kvs, body = .obj kvs ∧ optTruthy (lookupKey kvs "choices") = false)
    (hjob : job.getItem "input" = .ok (.obj ikvs))
    (hjprompt : optTruthy (lookupKey ikvs "prompt") = true) :
    (send_completion_request g prompt mt temp net).1
      = .obj [("error", .str (unexpectedFormatPrefix ++ body.dumps))]
  ∧ handlerValue (handler g job net)
      = some (.obj [("error", .str (unexpectedFormatPrefix ++ body.dumps))])
  ∧ strContains (unexpectedFormatPrefix ++ body.dumps)
      "Unexpected response format" = true := by
  have hct := completionTry_format_error resp body (by omega) hbody
    (checkChoices_false_of_shape hshape)
  refine ⟨?_, ?_, strContains_of_pre _ _ _ (by decide)⟩
  · simp [send_completion_request, get_server_status, hready, hprompt, hnet, hct]
  · simp [handler, handlerValue, hready, hjob, hjprompt, hnet, hct]

/-- C6, witness for the amended theorem: a 200 body with no `choices`
key. -/
theorem c6_witness :
    (send_completion_request gTok "hi" 500 (7 / 10)
        (fun _ => .ok { status := 200, jsonBody := some (.obj [("foo", .str "bar")]),
                        text := "" })).1
      = .obj [("error", .str (unexpectedFormatPrefix
          ++ (JValue.obj [("foo", .str "bar")]).dumps))]
  ∧ handlerValue (handler gTok jobHi
        (fun _ => .ok { status := 200, jsonBody := some (.obj [("foo", .str "bar")]),
                        text := "" }))
      = some (.obj [("error", .str (unexpectedFormatPrefix
          ++ (JValue.obj [("foo", .str "bar")]).dumps))])
  ∧ strContains (unexpectedFormatPrefix ++ (JValue.obj [("foo", .str "bar")]).dumps)
      "Unexpected response format" = true :=
  c6_format_error gTok "hi" 500 (7 / 10)
    (fun _ => .ok { status := 200, jsonBody := some (.obj [("foo", .str "bar")]),
                    text := "" })
    { status := 200, jsonBody := some (.obj [("foo", .str "bar")]), text := "" }
    (.obj [("foo", .str "bar")]) jobHi [("prompt", .str "hi")]
    rfl rfl (fun _ => rfl) (by decide) (by decide) rfl
    (Or.inr ⟨[("foo", .str "bar")], rfl, rfl⟩) rfl rfl

/-! ## Claims about the initialization sequence -/

/-- Outcomes other than an HTTP 200 are not a 200. -/
theorem is200_false_of_ne {o : PollOutcome} (h : o ≠ .status 200) :
    pollOutcomeIs200 o = false := by
  cases o with
  | status c =>
    simp only [pollOutcomeIs200, beq_eq_false_iff_ne, ne_eq]
    intro hc
    exact h (by rw [hc])
  | connError => rfl
  | otherError e => rfl

/-- Splitting off the first element of a shifted range of iterations. -/
theorem range_map_add_succ (i n : Nat) :
    (List.range (n + 1)).map (fun j => i + j)
      = i :: (List.range n).map (fun j => i + 1 + j) := by
  rw [List.range_succ_eq_map]
  simp only [List.map_cons, List.map_map, Nat.add_zero]
  refine congrArg (i :: ·) (List.map_congr_left fun a _ => ?_)
  simp only [Function.comp_apply]
  omega

/-- If the first 200 among the remaining iterations comes `k` steps after
`i` (with fuel to reach it), the loop ends ready, having polled exactly the
iterations `i .. i+k`. -/
theorem pollFrom_stops (health : Nat → PollOutcome) :
    ∀ (k fuel i : Nat), k < fuel →
      pollOutcomeIs200 (health (i + k)) = true →
      (∀ j < k, pollOutcomeIs200 (health (i + j)) = false) →
      pollFrom health i fuel = (true, (List.range (k + 1)).map (fun j => i + j)) := by
  intro k
  induction k with
  | zero =>
    intro fuel i hk h200 _
    match fuel, hk with
    | fuel + 1, _ =>
      rw [Nat.add_zero] at h200
      simp [pollFrom, h200, List.range_succ]
  | succ k ih =>
    intro fuel i hk h200 hbef
    match fuel, hk with
    | fuel + 1, hk =>
      have h0 : pollOutcomeIs200 (health i) = false := by
        have := hbef 0 (Nat.succ_pos k)
        rwa [Nat.add_zero] at this
      have hrec := ih fuel (i + 1) (by omega)
        (by rw [show i + 1 + k = i + (k + 1) by omega]; exact h200)
        (fun j hj => by
          rw [show i + 1 + j = i + (j + 1) by omega]
          exact hbef (j + 1) (by omega))
      rw [range_map_add_succ]
      simp [pollFrom, h0, hrec]

/-- If no remaining iteration yields a 200, the loop exhausts its fuel,
polling every iteration and ending not ready. -/
theorem pollFrom_none (health : Nat → PollOutcome) :
    ∀ (fuel i : Nat), (∀ j < fuel, pollOutcomeIs200 (health (i + j)) = false) →
      pollFrom health i fuel = (false, (List.range fuel).map (fun j => i + j)) := by
  intro fuel
  induction fuel with
  | zero => intro i _; simp [pollFrom]
  | succ fuel ih =>
    intro i hbef
    have h0 : pollOutcomeIs200 (health i) = false := by
      have := hbef 0 (Nat.succ_pos fuel)
      rwa [Nat.add_zero] at this
    have hrec := ih (i + 1) (fun j hj => by
      rw [show i + 1 + j = i + (j + 1) by omega]
      exact hbef (j + 1) (by omega))
    rw [range_map_add_succ]
    simp [pollFrom, h0, hrec]

/-- C7: if the first poll attempt returning HTTP 200 is attempt `k` (within
the bound), the polling loop embedded in both initializers ends with the
ready flag true having issued exactly the health requests `0 .. k` — none
after the first success. -/
theorem c7_first_success_stops_polling (health : Nat → PollOutcome)
    (bound k : Nat) (hk : k < bound)
    (h200 : health k = .status 200)
    (hbef : ∀ j < k, health j ≠ .status 200) :
    pollFrom health 0 bound = (true, List.range (k + 1)) := by
  have h200b : pollOutcomeIs200 (health (0 + k)) = true := by
    rw [Nat.zero_add, h200]; rfl
  have hbefb : ∀ j < k, pollOutcomeIs200 (health (0 + j)) = false := fun j hj => by
    rw [Nat.zero_add]
    exact is200_false_of_ne (hbef j hj)
  have := pollFrom_stops health k bound 0 hk h200b hbefb
  simpa using this

/-- C7, witness: non-200 for the first three attempts, then a 200; exactly
four health requests are issued. -/
theorem c7_witness :
    pollFrom (fun j => if j = 3 then .status 200 else .status 503) 0 10
      = (true, List.range 4) :=
  c7_first_success_stops_polling (fun j => if j = 3 then .status 200 else .status 503)
    10 3 (by decide) (by decide) (by decide)

/-- C8: when setup succeeds but no poll attempt within the bound (600 for
`initialize_runner`, 300 for `_initialize_runner`) returns HTTP 200, both
initialization variants send the kill signal to the launched subprocess
and terminate the process with exit status 1. -/
theorem c8_poll_bound_kill_and_exit (env : Env) (inputs : ConfigInputs)
    (cmdOk : String → Bool) (writeOk popenOk : Bool)
    (health : Nat → PollOutcome)
    (h1 : truthyOptStr env.hugging_face_token = true)
    (h2 : truthyOptStr env.hf_model_repo = true)
    (h3 : truthyOptStr env.hf_model_file = true)
    (hc : ∀ c, cmdOk c = true)
    (hw : writeOk = true) (hp : popenOk = true)
    (hno : ∀ i < 600, health i ≠ PollOutcome.status 200) :
    ((initRunner env inputs cmdOk writeOk popenOk health).1 = .exited 1
      ∧ (initRunner env inputs cmdOk writeOk popenOk health).2.any Effect.isKill
          = true)
  ∧ ((rpInitRunner env inputs cmdOk writeOk popenOk health).1 = .exited 1
      ∧ (rpInitRunner env inputs cmdOk writeOk popenOk health).2.any Effect.isKill
          = true) := by
  have hpoll600 := pollFrom_none health 600 0 (fun j hj => by
    rw [Nat.zero_add]
    exact is200_false_of_ne (hno j hj))
  have hpoll300 := pollFrom_none health 300 0 (fun j hj => by
    rw [Nat.zero_add]
    exact is200_false_of_ne (hno j (by omega)))
  subst hw hp
  refine ⟨⟨?_, ?_⟩, ⟨?_, ?_⟩⟩ <;>
    simp [initRunner, rpInitRunner, initRunnerAux, h1, h2, h3, hc,
      hpoll600, hpoll300, Effect.isKill]

/-- A complete environment for the initializer witnesses. -/
def env0 : Env :=
  { hugging_face_token := some "hf_tok"
    hf_model_repo := some "org/repo"
    hf_model_file := some "model.gguf"
    server_config_file := none
    api_token := none }

/-- Default configuration inputs for the initializer witnesses. -/
def inputs0 : ConfigInputs :=
  { server_port := 9095
    n_gpu_layers := -1
    n_ctx := 40000
    n_batch := 512
    n_threads := 8
    offload_kqv := true
    use_mlock := true
    rope_freq_scale := 4
    chat_format := "gemma" }

/-- C8, witness: a health endpoint that always refuses the connection. -/
theorem c8_witness :
    ((initRunner env0 inputs0 (fun _ => true) true true (fun _ => .connError)).1
        = .exited 1
      ∧ (initRunner env0 inputs0 (fun _ => true) true true
          (fun _ => .connError)).2.any Effect.isKill = true)
  ∧ ((rpInitRunner env0 inputs0 (fun _ => true) true true (fun _ => .connError)).1
        = .exited 1
      ∧ (rpInitRunner env0 inputs0 (fun _ => true) true true
          (fun _ => .connError)).2.any Effect.isKill = true) :=
  c8_poll_bound_kill_and_exit env0 inputs0 (fun _ => true) true true
    (fun _ => .connError) rfl rfl rfl (fun _ => rfl) rfl rfl
    (fun _ _ => (by decide : PollOutcome.connError ≠ PollOutcome.status 200))

/-- C9: if any of the three required configuration values is missing (or
empty), both initialization variants exit with status 1 having performed in
particular no subprocess launch (no shell command, no server start). -/
theorem c9_missing_env_no_subprocess (env : Env) (inputs : ConfigInputs)
    (cmdOk : String → Bool) (writeOk popenOk : Bool)
    (health : Nat → PollOutcome)
    (hmiss : truthyOptStr env.hugging_face_token = false
      ∨ truthyOptStr env.hf_model_repo = false
      ∨ truthyOptStr env.hf_model_file = false) :
    ((initRunner env inputs cmdOk writeOk popenOk health).1 = .exited 1
      ∧ (initRunner env inputs cmdOk writeOk popenOk health).2.any Effect.isLaunch
          = false)
  ∧ ((rpInitRunner env inputs cmdOk writeOk popenOk health).1 = .exited 1
      ∧ (rpInitRunner env inputs cmdOk writeOk popenOk health).2.any Effect.isLaunch
          = false) := by
  have key : ∀ bound,
      initRunnerAux bound env inputs cmdOk writeOk popenOk health
        = (.exited 1, []) := by
    intro bound
    rcases hmiss with h | h | h
    · simp [initRunnerAux, h]
    · by_cases h1 : truthyOptStr env.hugging_face_token = false
      · simp [initRunnerAux, h1]
      · simp [initRunnerAux, h1, h]
    · by_cases h1 : truthyOptStr env.hugging_face_token = false
      · simp [initRunnerAux, h1]
      · by_cases h2 : truthyOptStr env.hf_model_repo = false
        · simp [initRunnerAux, h1, h2]
        · simp [initRunnerAux, h1, h2, h]
  refine ⟨⟨?_, ?_⟩, ⟨?_, ?_⟩⟩ <;> simp [initRunner, rpInitRunner, key]

/-- C9, witness: the credential token is unset. -/
theorem c9_witness :
    ((initRunner { env0 with hugging_face_token := none } inputs0
        (fun _ => true) true true (fun _ => .connError)).1 = .exited 1
      ∧ (initRunner { env0 with hugging_face_token := none } inputs0
          (fun _ => true) true true (fun _ => .connError)).2.any Effect.isLaunch
          = false)
  ∧ ((rpInitRunner { env0 with hugging_face_token := none } inputs0
        (fun _ => true) true true (fun _ => .connError)).1 = .exited 1
      ∧ (rpInitRunner { env0 with hugging_face_token := none } inputs0
          (fun _ => true) true true (fun _ => .connError)).2.any Effect.isLaunch
          = false) :=
  c9_missing_env_no_subprocess { env0 with hugging_face_token := none } inputs0
    (fun _ => true) true true (fun _ => .connError) (Or.inl rfl)

/-- Top-level lookup in a generated configuration document. -/
def topLookup (cfg : JValue) (k : String) : Option JValue :=
  match cfg with
  | .obj kvs => lookupKey kvs k
  | _ => none

/-- The first entry of the `models` list of a configuration document. -/
def firstModel (cfg : JValue) : Except PyExn JValue :=
  match cfg.getItem "models" with
  | .ok ms => ms.index 0
  | .error e => .error e

/-- C10: reading the generated configuration document back reproduces the
supplied port, the model path, and every numeric and boolean model
parameter exactly, and the document carries a top-level `api_key` entry —
holding the token — precisely when an API token is configured (truthy). -/
theorem c10_config_roundtrip (inputs : ConfigInputs) (file : String)
    (tok : Option String) :
    (config_content inputs file tok).getItem "host" = .ok (.str "0.0.0.0")
  ∧ (config_content inputs file tok).getItem "port"
      = .ok (.num (inputs.server_port : Rat))
  ∧ firstModel (config_content inputs file tok)
      = .ok (.obj
          [("model", .str ("models/" ++ file)),
           ("n_gpu_layers", .num (inputs.n_gpu_layers : Rat)),
           ("n_ctx", .num (inputs.n_ctx : Rat)),
           ("n_batch", .num (inputs.n_batch : Rat)),
           ("n_threads", .num (inputs.n_threads : Rat)),
           ("offload_kqv", .bool inputs.offload_kqv),
           ("use_mlock", .bool inputs.use_mlock),
           ("rope_freq_scale", .num inputs.rope_freq_scale),
           ("chat_format", .str inputs.chat_format)])
  ∧ hasKey (config_content inputs file tok) "api_key" = truthyOptStr tok
  ∧ topLookup (config_content inputs file tok) "api_key"
      = (if truthyOptStr tok = true then some (.str (tok.getD "")) else none) := by
  cases ht : truthyOptStr tok <;>
    simp only [config_content, ht] <;>
    exact ⟨rfl, rfl, rfl, rfl, rfl⟩
